import Mathlib

/-!
Verification of the meshtls-rustls credential core
(`linkerd/meshtls/rustls/src/creds.rs`, `creds/store.rs`): a shallow
embedding of the credential store, its rotation (`set_certificate`),
the certificate resolvers, the signing adapter and the `watch`
initialisation path, with theorems settling the behavioural claims.

External collaborators (rustls verification, webpki subject-name checks,
ring key parsing, PEM decoding) are out of scope of the repository and are
modelled as explicit environment functions, so every theorem quantifies
over their behaviour; the repository's own logic is translated directly
from the source.
-/

/-- DER-encoded bytes (`Vec<u8>` in the source). -/
abbrev Der := List Nat

/-- `rustls::Certificate`: a DER certificate. -/
structure Certificate where
  der : Der
deriving DecidableEq, Repr

/-- `rustls::SignatureScheme` (the variants relevant to this code). -/
inductive SignatureScheme
  | rsa_pkcs1_sha256
  | rsa_pss_sha256
  | ecdsa_nistp256_sha256
  | ecdsa_nistp384_sha384
  | ed25519
deriving DecidableEq, Repr

/-- `rustls::SignatureAlgorithm` (the variants relevant to this code). -/
inductive SignatureAlgorithm
  | rsa
  | dsa
  | ecdsa
  | ed25519
deriving DecidableEq, Repr

/-- `rustls::Error`, kept opaque: the store only propagates it. -/
inductive TlsError
  | mk (code : Nat)
deriving DecidableEq, Repr

/-- `webpki::Error`, kept opaque. -/
inductive WebPkiError
  | mk (code : Nat)
deriving DecidableEq, Repr

/-- Cipher suites named by the pinned configuration. -/
inductive CipherSuite
  | tls13_chacha20_poly1305_sha256
  | tls13_aes_128_gcm_sha256
deriving DecidableEq, Repr

/-- Protocol versions named by the pinned configuration. -/
inductive ProtocolVersion
  | tls12
  | tls13
deriving DecidableEq, Repr

/-- `SystemTime` instants, abstracted to a counter. -/
abbrev SystemTime := Nat

-- `mod params` of creds.rs: the fixed algorithm constants that must be
-- kept in sync.

/-- `params::SIGNATURE_ALG_RUSTLS_SCHEME = ECDSA_NISTP256_SHA256`. -/
def SIGNATURE_ALG_RUSTLS_SCHEME : SignatureScheme := .ecdsa_nistp256_sha256

/-- `params::SIGNATURE_ALG_RUSTLS_ALGORITHM = ECDSA`. -/
def SIGNATURE_ALG_RUSTLS_ALGORITHM : SignatureAlgorithm := .ecdsa

/-- `params::TLS_VERSIONS = [TLS13]`. -/
def TLS_VERSIONS : List ProtocolVersion := [.tls13]

/-- `params::TLS_SUPPORTED_CIPHERSUITES = [TLS13_CHACHA20_POLY1305_SHA256]`. -/
def TLS_SUPPORTED_CIPHERSUITES : List CipherSuite := [.tls13_chacha20_poly1305_sha256]

/-- A parsed `ring::signature::EcdsaKeyPair`, opaque to this code: the
store only stores it and hands it to the signing adapter. -/
structure EcdsaKeyPair where
  handle : Nat
deriving DecidableEq, Repr

/-- `Key(Arc<EcdsaKeyPair>)`: the signing adapter wrapping the private
key (store.rs line 21).  Cloning an `Arc` shares the key, so the clone is
the value itself here. -/
structure Key where
  key : EcdsaKeyPair
deriving DecidableEq, Repr

/-- `rustls::sign::SigningKey::choose_scheme` for `Key` (store.rs
lines 177-186): returns the adapter itself as the signer exactly when the
fixed scheme is among the offered ones. -/
def Key.choose_scheme (k : Key) (offered : List SignatureScheme) : Option Key :=
  if !(offered.contains SIGNATURE_ALG_RUSTLS_SCHEME) then
    none
  else
    some k

/-- `rustls::sign::SigningKey::algorithm` for `Key` (store.rs
lines 188-190): the fixed constant. -/
def Key.algorithm (_ : Key) : SignatureAlgorithm := SIGNATURE_ALG_RUSTLS_ALGORITHM

/-- `rustls::sign::Signer::scheme` for `Key` (store.rs lines 202-204):
the fixed constant. -/
def Key.scheme (_ : Key) : SignatureScheme := SIGNATURE_ALG_RUSTLS_SCHEME

/-- `rustls::sign::CertifiedKey`: a certificate chain bound to a signing
key (`CertifiedKey::new(chain, key)` in `set_certificate`). -/
structure CertifiedKey where
  cert : List Certificate
  key : Key
deriving DecidableEq, Repr

/-- `CertResolver(Arc<rustls::sign::CertifiedKey>)` (store.rs line 24). -/
structure CertResolver where
  certified : CertifiedKey
deriving DecidableEq, Repr

/-- `CertResolver::resolve_` (store.rs lines 211-221): yields the bound
certified key exactly when the fixed scheme is among the offered ones. -/
def CertResolver.resolve_ (r : CertResolver) (sigschemes : List SignatureScheme) :
    Option CertifiedKey :=
  if !(sigschemes.contains SIGNATURE_ALG_RUSTLS_SCHEME) then
    none
  else
    some r.certified

/-- `rustls::client::ResolvesClientCert::resolve` for `CertResolver`
(store.rs lines 225-231): the acceptable issuers are ignored. -/
def CertResolver.resolve_client (r : CertResolver) (_acceptable_issuers : List Der)
    (sigschemes : List SignatureScheme) : Option CertifiedKey :=
  r.resolve_ sigschemes

/-- `rustls::client::ResolvesClientCert::has_certs` for `CertResolver`
(store.rs lines 233-235). -/
def CertResolver.has_certs (_ : CertResolver) : Bool := true

/-- The webpki operations used by the server-side resolver, external to
the repository: DNS-name parsing of the SNI value, end-entity certificate
parsing, and the subject-name check. -/
structure WebPki where
  try_from_ascii_str : String → Option String
  end_entity_try_from : Der → Except WebPkiError Der
  verify_is_valid_for_subject_name : Der → String → Except WebPkiError Unit

/-- The parts of `rustls::server::ClientHello` this code reads. -/
structure ClientHello where
  server_name : Option String
  signature_schemes : List SignatureScheme

/-- `rustls::server::ResolvesServerCert::resolve` for `CertResolver`
(store.rs lines 239-265).  The outer `Option` models panics: `none` is
the `.expect("server name must be a valid server name")` panic; every
normal return is `some`.  With no SNI, or when the loaded leaf is not
valid for the requested name, the resolver answers `some none`: no
certificate is presented. -/
def CertResolver.resolve_server (w : WebPki) (r : CertResolver) (hello : ClientHello) :
    Option (Option CertifiedKey) :=
  match hello.server_name with
  | none =>
    -- "no SNI -> no certificate"
    some none
  | some name =>
    match w.try_from_ascii_str name with
    | none => none
    | some server_name =>
      match r.certified.cert.head? with
      | none => some none
      | some c =>
        -- Verify that our certificate is valid for the given SNI name.
        match (w.end_entity_try_from c.der).bind
            (fun ec => w.verify_is_valid_for_subject_name ec server_name) with
        | .error _ => some none
        | .ok _ => some (r.resolve_ hello.signature_schemes)

/-- `rustls::client::ServerCertVerifier::verify_server_cert`, external to
the repository (a `WebPkiVerifier` built over the trust roots): takes the
end entity, the intermediates, the server name and the current time (the
SCT iterator and OCSP response are the constant empties at the one call
site, so they are dropped). -/
abbrev ServerCertVerifier := Certificate → List Certificate → String → SystemTime →
  Except TlsError Unit

/-- `rustls::RootCertStore`. -/
structure RootCertStore where
  roots : List Der
deriving DecidableEq, Repr

/-- `RootCertStore::empty()`. -/
def RootCertStore.empty : RootCertStore := ⟨[]⟩

/-- `RootCertStore::add_parsable_certificates` (external rustls code used
by `watch`): tries to add each DER certificate in order, returning the
grown store and the counts `(added, skipped)`; which certificates are
addable is the environment's `parsable` predicate. -/
def RootCertStore.add_parsable_certificates (s : RootCertStore) (parsable : Der → Bool) :
    List Der → RootCertStore × Nat × Nat
  | [] => (s, 0, 0)
  | der :: rest =>
    if parsable der then
      let out := RootCertStore.add_parsable_certificates ⟨s.roots ++ [der]⟩ parsable rest
      (out.1, out.2.1 + 1, out.2.2)
    else
      let out := RootCertStore.add_parsable_certificates s parsable rest
      (out.1, out.2.1, out.2.2 + 1)

/-- The client-configuration builder state after
`ClientConfig::builder().with_cipher_suites(..).with_safe_default_kx_groups()
.with_protocol_versions(..).with_custom_certificate_verifier(..)`
(store.rs lines 26-45). -/
structure ClientConfigBuilder where
  cipher_suites : List CipherSuite
  safe_default_kx_groups : Bool
  versions : List ProtocolVersion
  cert_verifier : ServerCertVerifier

/-- `rustls::ClientConfig` as this code builds it. -/
structure ClientConfig where
  cipher_suites : List CipherSuite
  safe_default_kx_groups : Bool
  versions : List ProtocolVersion
  cert_verifier : ServerCertVerifier
  client_auth_cert_resolver : Option CertResolver
  resumption_disabled : Bool

/-- `client_config_builder` (store.rs lines 26-45): pins the cipher
suites, key-exchange groups and protocol versions and installs the shared
server-certificate verifier. -/
def client_config_builder (cert_verifier : ServerCertVerifier) : ClientConfigBuilder :=
  { cipher_suites := TLS_SUPPORTED_CIPHERSUITES
    safe_default_kx_groups := true
    versions := TLS_VERSIONS
    cert_verifier := cert_verifier }

/-- `.with_no_client_auth()` on the builder (creds.rs line 67): no client
certificate resolver.  Resumption is in its rustls default state until the
caller disables it. -/
def ClientConfigBuilder.with_no_client_auth (b : ClientConfigBuilder) : ClientConfig :=
  { cipher_suites := b.cipher_suites
    safe_default_kx_groups := b.safe_default_kx_groups
    versions := b.versions
    cert_verifier := b.cert_verifier
    client_auth_cert_resolver := none
    resumption_disabled := false }

/-- `.with_client_cert_resolver(resolver)` on the builder (store.rs
line 96). -/
def ClientConfigBuilder.with_client_cert_resolver (b : ClientConfigBuilder)
    (resolver : CertResolver) : ClientConfig :=
  { cipher_suites := b.cipher_suites
    safe_default_kx_groups := b.safe_default_kx_groups
    versions := b.versions
    cert_verifier := b.cert_verifier
    client_auth_cert_resolver := some resolver
    resumption_disabled := false }

/-- The server-side certificate resolver installed in a server config:
either the empty `ResolvesServerCertUsingSni::new()` used before any
certificate is available (creds.rs line 79), or the store's
`CertResolver`. -/
inductive ServerResolver
  | resolves_server_cert_using_sni
  | cert_resolver (r : CertResolver)

/-- `rustls::ServerConfig` as this code builds it: pinned parameters, an
`AllowAnyAnonymousOrAuthenticatedClient` client-certificate verifier over
the trust roots, and a certificate resolver. -/
structure ServerConfig where
  cipher_suites : List CipherSuite
  safe_default_kx_groups : Bool
  versions : List ProtocolVersion
  client_cert_verifier_roots : RootCertStore
  cert_resolver : ServerResolver

/-- `server_config` (store.rs lines 47-68). -/
def server_config (roots : RootCertStore) (resolver : ServerResolver) : ServerConfig :=
  { cipher_suites := TLS_SUPPORTED_CIPHERSUITES
    safe_default_kx_groups := true
    versions := TLS_VERSIONS
    client_cert_verifier_roots := roots
    cert_resolver := resolver }

/-- `tokio::sync::watch` channel state, as seen through one sender: the
latest published value and whether any receiver is alive. -/
structure WatchChannel (α : Type) where
  value : α
  has_receivers : Bool

/-- `tokio::sync::watch::error::SendError` (the rejected value is not
needed). -/
inductive SendError
  | mk
deriving DecidableEq, Repr

/-- `tokio::sync::watch::channel(v)`: a fresh channel whose receiver is
alive. -/
def WatchChannel.channel {α : Type} (v : α) : WatchChannel α := ⟨v, true⟩

/-- `tokio::sync::watch::Sender::send`: publishes the value, failing (and
leaving the stored value unchanged) when no receiver is alive. -/
def WatchChannel.send {α : Type} (ch : WatchChannel α) (v : α) :
    WatchChannel α × Except SendError Unit :=
  if ch.has_receivers then
    ({ ch with value := v }, .ok ())
  else
    (ch, .error .mk)

/-- `Store` (store.rs lines 10-18).  The two watch channels are held here
so that state passing makes publication explicit; `name` is the
`id::Name`, a string already validated as a DNS name by its type. -/
structure Store where
  roots : RootCertStore
  server_cert_verifier : ServerCertVerifier
  key : EcdsaKeyPair
  csr : List Nat
  name : String
  client_tx : WatchChannel ClientConfig
  server_tx : WatchChannel ServerConfig

/-- `Store::new` (store.rs lines 73-91). -/
def Store.new (roots : RootCertStore) (server_cert_verifier : ServerCertVerifier)
    (key : EcdsaKeyPair) (csr : List Nat) (name : String)
    (client_tx : WatchChannel ClientConfig) (server_tx : WatchChannel ServerConfig) : Store :=
  { roots := roots
    server_cert_verifier := server_cert_verifier
    key := key
    csr := csr
    name := name
    client_tx := client_tx
    server_tx := server_tx }

/-- `Store::client_config` (store.rs lines 94-103): builds a client
configuration around the given resolver and disables session
resumption. -/
def Store.client_config (s : Store) (resolver : CertResolver) : ClientConfig :=
  let cfg := (client_config_builder s.server_cert_verifier).with_client_cert_resolver resolver
  { cfg with resumption_disabled := true }

/-- `Store::validate` (store.rs lines 107-125): checks the chain with the
server-certificate verifier against the store's own name.  `&certs[0]`
and `&certs[1..]` index the chain, which panics on an empty slice; the
outer `Option` models that panic (`none`), every normal return is `some`.
`ServerName::try_from(self.name.as_str())` cannot fail because `id::Name`
guarantees a valid DNS name, so the name passes through; the ambient
`SystemTime::now()` is the explicit `now` argument. -/
def Store.validate (s : Store) (now : SystemTime) (certs : List Certificate) :
    Option (Except TlsError Unit) :=
  match certs with
  | [] => none
  | end_entity :: intermediates =>
    some (s.server_cert_verifier end_entity intermediates s.name now)

/-- The error of a failed rotation: spec taxonomy `CertificateInvalid`,
wrapping the verification error that `set_certificate` propagates. -/
inductive SetCertificateError
  | certificateInvalid (e : TlsError)
deriving DecidableEq, Repr

/-- The chain assembled by `set_certificate` (store.rs lines 146-152):
the leaf first, then the intermediates in their given order. -/
def assemble_chain (leaf : Der) (intermediates : List Der) : List Certificate :=
  Certificate.mk leaf :: intermediates.map Certificate.mk

/-- Steps 3-6 of a successful rotation (store.rs lines 157-168): bind the
chain and key into a `CertifiedKey`, build a resolver over it, build the
new client and server configurations, and send both on the watch
channels, ignoring send errors (`let _ = ...send(..)`). -/
def Store.publish_certified (s : Store) (chain : List Certificate) : Store :=
  let resolver : CertResolver := ⟨⟨chain, ⟨s.key⟩⟩⟩
  let client := s.client_config resolver
  let server := server_config s.roots (.cert_resolver resolver)
  let client_sent := s.client_tx.send client
  let server_sent := s.server_tx.send server
  { s with client_tx := client_sent.1, server_tx := server_sent.1 }

/-- `Store::set_certificate` (store.rs lines 140-171): assembles the
chain leaf-first, validates it, and on success publishes new
configurations; the expiry argument is `_expiry`, unused.  The outer
`Option` models panics, inherited from `validate`. -/
def Store.set_certificate (s : Store) (leaf : Der) (intermediates : List Der)
    (_expiry : SystemTime) (now : SystemTime) :
    Option (Except SetCertificateError Unit × Store) :=
  let chain := assemble_chain leaf intermediates
  match s.validate now chain with
  | none => none
  | some (.error e) => some (.error (.certificateInvalid e), s)
  | some (.ok _) => some (.ok (), s.publish_certified chain)

/-- `id::Credentials::dns_name` for `Store` (store.rs lines 130-132). -/
def Store.dns_name (s : Store) : String := s.name

/-- `id::Credentials::gen_certificate_signing_request` for `Store`
(store.rs lines 135-137): the fixed CSR bytes. -/
def Store.gen_certificate_signing_request (s : Store) : List Nat := s.csr

/-- Modelled from the spec: `creds/receiver.rs` is not among the staged
sources.  Spec section 4.4: a Receiver exposes the identity name and two
accessors returning the current client/server snapshot, always the latest
published value on the shared channel, and cloning shares the channel. -/
structure Receiver where
  name : String

/-- Modelled from the spec: the receiver's identity-name accessor. -/
def Receiver.identity_name (r : Receiver) : String := r.name

/-- Modelled from the spec: a read of the client snapshot returns the
latest value published on the shared client channel (held in the Store in
this state-passing embedding). -/
def Receiver.client_config_read (_ : Receiver) (s : Store) : ClientConfig :=
  s.client_tx.value

/-- Modelled from the spec: a read of the server snapshot returns the
latest value published on the shared server channel. -/
def Receiver.server_config_read (_ : Receiver) (s : Store) : ServerConfig :=
  s.server_tx.value

/-- The external operations `watch` relies on: PEM decoding
(`rustls_pemfile::certs`, whose failure is an io error), the
addability predicate of `RootCertStore::add_parsable_certificates`, ring
key parsing (`EcdsaKeyPair::from_pkcs8` at the fixed algorithm), and the
construction of the `WebPkiVerifier` over the trust roots. -/
structure CredsEnv where
  pemfile_certs : String → Except Nat (List Der)
  parsable_root : Der → Bool
  from_pkcs8 : List Nat → Except Nat EcdsaKeyPair
  webpki_verifier : RootCertStore → ServerCertVerifier

/-- The errors `watch` returns (creds.rs lines 14-47).  The declared
`InvalidTrustRoots` type (creds.rs lines 18-20) is listed so statements
can compare against it; the string errors are the ones the code actually
builds. -/
inductive WatchError
  | pemfileError (code : Nat)
  | noTrustRootsInPem
  | noTrustRootsLoaded
  | invalidKey (code : Nat)
  | invalidTrustRoots
deriving DecidableEq, Repr

/-- `watch` (creds.rs lines 22-95): parses the trust anchors, adds the
parsable ones, parses the private key, and publishes the initial
snapshots: a client configuration with no client certificate (resumption
disabled) and a server configuration with the empty SNI resolver. -/
def watch (env : CredsEnv) (identity : String) (roots_pem : String)
    (key_pkcs8 : List Nat) (csr : List Nat) : Except WatchError (Store × Receiver) :=
  match env.pemfile_certs roots_pem with
  | .error e => .error (.pemfileError e)
  | .ok certs =>
    if certs.isEmpty then
      .error .noTrustRootsInPem
    else
      let out := RootCertStore.empty.add_parsable_certificates env.parsable_root certs
      let roots := out.1
      let added := out.2.1
      if added == 0 then
        .error .noTrustRootsLoaded
      else
        match env.from_pkcs8 key_pkcs8 with
        | .error e => .error (.invalidKey e)
        | .ok key =>
          let server_cert_verifier := env.webpki_verifier roots
          let client_cfg :=
            { (client_config_builder server_cert_verifier).with_no_client_auth with
                resumption_disabled := true }
          let client_ch := WatchChannel.channel client_cfg
          let server_ch :=
            WatchChannel.channel (server_config roots .resolves_server_cert_using_sni)
          let rx : Receiver := ⟨identity⟩
          let store := Store.new roots server_cert_verifier key csr identity
            client_ch server_ch
          .ok (store, rx)

/-- Server-side resolution as installed in a server configuration: the
empty `ResolvesServerCertUsingSni::new()` (external rustls code with no
registered names) never returns a certificate for any hello; the store's
resolver follows store.rs lines 239-265. -/
def ServerResolver.resolve (w : WebPki) : ServerResolver → ClientHello →
    Option (Option CertifiedKey)
  | .resolves_server_cert_using_sni, _ => some none
  | .cert_resolver r, hello => r.resolve_server w hello

-- Test fixtures used by the witnesses below.

/-- A verifier that accepts every chain. -/
def okVerifier : ServerCertVerifier := fun _ _ _ _ => .ok ()

/-- A verifier that rejects every chain with a fixed error. -/
def errVerifier : ServerCertVerifier := fun _ _ _ _ => .error (TlsError.mk 7)

/-- The initial client configuration `watch` publishes, for a given
verifier. -/
def initClientConfig (v : ServerCertVerifier) : ClientConfig :=
  { (client_config_builder v).with_no_client_auth with resumption_disabled := true }

/-- A store whose verifier rejects every chain. -/
def storeErr : Store :=
  { roots := ⟨[[9]]⟩
    server_cert_verifier := errVerifier
    key := ⟨1⟩
    csr := [5]
    name := "foo.ns1"
    client_tx := WatchChannel.channel (initClientConfig errVerifier)
    server_tx := WatchChannel.channel (server_config ⟨[[9]]⟩ .resolves_server_cert_using_sni) }

/-- A store whose verifier accepts every chain but both of whose channels
have lost all receivers. -/
def storeOkNoReceivers : Store :=
  { roots := ⟨[[9]]⟩
    server_cert_verifier := okVerifier
    key := ⟨1⟩
    csr := [5]
    name := "foo.ns1"
    client_tx := ⟨initClientConfig okVerifier, false⟩
    server_tx := ⟨server_config ⟨[[9]]⟩ .resolves_server_cert_using_sni, false⟩ }

/-- A webpki environment whose subject-name check rejects every pair. -/
def wpkiReject : WebPki :=
  { try_from_ascii_str := fun s => some s
    end_entity_try_from := fun d => .ok d
    verify_is_valid_for_subject_name := fun _ _ => .error (WebPkiError.mk 3) }

/-- A resolver loaded with a one-certificate chain. -/
def resolverFoo : CertResolver := ⟨⟨[⟨[10]⟩], ⟨⟨1⟩⟩⟩⟩

/-- An environment whose PEM decodes to one certificate that the root
store cannot add, with a valid key. -/
def envNoAddableRoots : CredsEnv :=
  { pemfile_certs := fun _ => .ok [[0]]
    parsable_root := fun _ => false
    from_pkcs8 := fun _ => .ok ⟨1⟩
    webpki_verifier := fun _ => okVerifier }

/-- An environment whose PEM decodes to two certificates of which
exactly one is addable, with a valid key. -/
def envOneAddableRoot : CredsEnv :=
  { pemfile_certs := fun _ => .ok [[0], [1]]
    parsable_root := fun d => d == [0]
    from_pkcs8 := fun _ => .ok ⟨1⟩
    webpki_verifier := fun _ => okVerifier }

/-- Claim C4: for every offered set of signature schemes, the signing
adapter's `choose_scheme` returns itself as the signer exactly when the
fixed ECDSA-P256-SHA256 scheme is an element of the offered set — so it
never signs under any other scheme — and its `algorithm`/`scheme`
accessors always return the fixed constants. -/
theorem choose_scheme_iff_fixed_offered (k : Key) (offered : List SignatureScheme) :
    k.choose_scheme offered
        = (if SIGNATURE_ALG_RUSTLS_SCHEME ∈ offered then some k else none)
    ∧ ((k.choose_scheme offered).isSome = true ↔ SIGNATURE_ALG_RUSTLS_SCHEME ∈ offered)
    ∧ k.algorithm = SIGNATURE_ALG_RUSTLS_ALGORITHM
    ∧ k.scheme = SIGNATURE_ALG_RUSTLS_SCHEME := by
  have hmain : k.choose_scheme offered
      = (if SIGNATURE_ALG_RUSTLS_SCHEME ∈ offered then some k else none) := by
    by_cases h : SIGNATURE_ALG_RUSTLS_SCHEME ∈ offered <;>
      simp [Key.choose_scheme, List.elem_iff, h]
  refine ⟨hmain, ?_, rfl, rfl⟩
  rw [hmain]
  by_cases h : SIGNATURE_ALG_RUSTLS_SCHEME ∈ offered <;> simp [h]

/-- Claim C5: for every offered set of signature schemes, regardless of
ordering or size, client-side resolution on a resolver built from a
certified identity returns that bound identity when the fixed scheme is
in the offered set, and no certificate when it is not; the acceptable
issuers are ignored. -/
theorem resolve_client_iff_fixed_offered (r : CertResolver) (issuers : List Der)
    (sigschemes : List SignatureScheme) :
    r.resolve_client issuers sigschemes
        = (if SIGNATURE_ALG_RUSTLS_SCHEME ∈ sigschemes then some r.certified else none)
    ∧ ((r.resolve_client issuers sigschemes).isSome = true
        ↔ SIGNATURE_ALG_RUSTLS_SCHEME ∈ sigschemes) := by
  have hmain : r.resolve_client issuers sigschemes
      = (if SIGNATURE_ALG_RUSTLS_SCHEME ∈ sigschemes then some r.certified else none) := by
    by_cases h : SIGNATURE_ALG_RUSTLS_SCHEME ∈ sigschemes <;>
      simp [CertResolver.resolve_client, CertResolver.resolve_, List.elem_iff, h]
  refine ⟨hmain, ?_⟩
  rw [hmain]
  by_cases h : SIGNATURE_ALG_RUSTLS_SCHEME ∈ sigschemes <;> simp [h]

/-- Claim C6: for every client hello that supplies no server name, server
side resolution returns no certificate — for the store's resolver
whatever chain it is loaded with, and for the empty initial resolver as
well — regardless of the offered signature schemes. -/
theorem resolve_server_no_sni (w : WebPki) (r : CertResolver) (res : ServerResolver)
    (schemes : List SignatureScheme) :
    r.resolve_server w { server_name := none, signature_schemes := schemes } = some none
    ∧ res.resolve w { server_name := none, signature_schemes := schemes } = some none := by
  refine ⟨rfl, ?_⟩
  cases res <;> rfl

/-- Claim C7: for every client hello whose requested server name parses
but is not covered by the subject of the currently loaded leaf
certificate (the webpki end-entity parse/subject-name check fails),
server-side resolution returns no certificate even though a certificate
is loaded — it never presents the mismatched identity, whatever the
offered schemes. -/
theorem resolve_server_sni_mismatch (w : WebPki) (r : CertResolver) (name dns : String)
    (schemes : List SignatureScheme) (c : Certificate) (e : WebPkiError)
    (hdns : w.try_from_ascii_str name = some dns)
    (hleaf : r.certified.cert.head? = some c)
    (hfail : (w.end_entity_try_from c.der).bind
        (fun ec => w.verify_is_valid_for_subject_name ec dns) = .error e) :
    r.resolve_server w { server_name := some name, signature_schemes := schemes }
      = some none := by
  simp [CertResolver.resolve_server, hdns, hleaf, hfail]

/-- Witness for C7 at a concrete resolver, hello and webpki environment
whose subject-name check rejects; the fixed scheme is offered, so only
the name mismatch is in play. -/
theorem resolve_server_sni_mismatch_witness :
    resolverFoo.resolve_server wpkiReject
        { server_name := some "bar.ns1",
          signature_schemes := [SIGNATURE_ALG_RUSTLS_SCHEME] }
      = some none :=
  resolve_server_sni_mismatch wpkiReject resolverFoo "bar.ns1" "bar.ns1"
    [SIGNATURE_ALG_RUSTLS_SCHEME] ⟨[10]⟩ (WebPkiError.mk 3) rfl rfl rfl

/-- Claim C9: the outcome of `set_certificate` is independent of its
expiry argument — two calls on the same store state differing only in the
expiry timestamp are the same computation (the expiry is never
consulted). -/
theorem set_certificate_ignores_expiry (s : Store) (leaf : Der)
    (intermediates : List Der) (expiry₁ expiry₂ now : SystemTime) :
    s.set_certificate leaf intermediates expiry₁ now
      = s.set_certificate leaf intermediates expiry₂ now := rfl

/-- Claim C10: the chain `set_certificate` passes to `validate` always
has the leaf as its first element, so it is never empty, `validate`
never reaches its out-of-bounds (`none`) case, and `set_certificate`
never panics. -/
theorem validate_chain_in_bounds (s : Store) (leaf : Der) (intermediates : List Der)
    (expiry now : SystemTime) :
    assemble_chain leaf intermediates ≠ []
    ∧ (s.validate now (assemble_chain leaf intermediates)).isSome = true
    ∧ (s.set_certificate leaf intermediates expiry now).isSome = true := by
  refine ⟨by simp [assemble_chain], by simp [assemble_chain, Store.validate], ?_⟩
  cases h : s.server_cert_verifier (Certificate.mk leaf)
      (intermediates.map Certificate.mk) s.name now <;>
    simp [Store.set_certificate, assemble_chain, Store.validate, h]

/-- Claim C1: when the chain fails validation against the trust roots for
the configured identity name (the verifier rejects it), `set_certificate`
returns the `CertificateInvalid` error wrapping the verification error,
the store — and so the published client and server snapshots — is left
unchanged, and every subsequent read from any Receiver returns the
pre-rotation snapshots. -/
theorem set_certificate_invalid_preserves_snapshots (s : Store) (leaf : Der)
    (intermediates : List Der) (expiry now : SystemTime) (e : TlsError)
    (h : s.server_cert_verifier (Certificate.mk leaf) (intermediates.map Certificate.mk)
        s.name now = .error e) :
    s.set_certificate leaf intermediates expiry now
        = some (.error (.certificateInvalid e), s)
    ∧ ∀ (r : Receiver) (res : Except SetCertificateError Unit) (s' : Store),
        s.set_certificate leaf intermediates expiry now = some (res, s') →
        r.client_config_read s' = r.client_config_read s
        ∧ r.server_config_read s' = r.server_config_read s := by
  have hmain : s.set_certificate leaf intermediates expiry now
      = some (.error (.certificateInvalid e), s) := by
    simp [Store.set_certificate, assemble_chain, Store.validate, h]
  refine ⟨hmain, ?_⟩
  intro r res s' hcall
  rw [hmain] at hcall
  simp only [Option.some.injEq, Prod.mk.injEq] at hcall
  obtain ⟨-, hs⟩ := hcall
  rw [← hs]
  exact ⟨rfl, rfl⟩

/-- Witness for C1 at a concrete store whose verifier rejects every
chain. -/
theorem set_certificate_invalid_preserves_snapshots_witness :
    storeErr.set_certificate [1] [[2]] 0 0
        = some (.error (.certificateInvalid (TlsError.mk 7)), storeErr)
    ∧ ∀ (r : Receiver) (res : Except SetCertificateError Unit) (s' : Store),
        storeErr.set_certificate [1] [[2]] 0 0 = some (res, s') →
        r.client_config_read s' = r.client_config_read storeErr
        ∧ r.server_config_read s' = r.server_config_read storeErr :=
  set_certificate_invalid_preserves_snapshots storeErr [1] [[2]] 0 0 (TlsError.mk 7) rfl

/-- Claim C2: `set_certificate` assembles the chain as the leaf followed
by the intermediates in their given order, validates that whole chain
with the server-certificate verifier against the store's own identity
name, and only on success builds and publishes the new snapshots (on
failure it returns `CertificateInvalid` and the store is untouched). -/
theorem set_certificate_validates_chain_then_publishes (s : Store) (leaf : Der)
    (intermediates : List Der) (expiry now : SystemTime) :
    s.set_certificate leaf intermediates expiry now
      = match s.server_cert_verifier (Certificate.mk leaf)
            (intermediates.map Certificate.mk) s.name now with
        | .error e => some (.error (.certificateInvalid e), s)
        | .ok _ => some (.ok (), s.publish_certified (assemble_chain leaf intermediates)) := by
  cases h : s.server_cert_verifier (Certificate.mk leaf)
      (intermediates.map Certificate.mk) s.name now <;>
    simp [Store.set_certificate, assemble_chain, Store.validate, h]

/-- Claim C8: after validation succeeds, `set_certificate` returns
success even when publishing on both channels fails because no receiver
is alive — the send error is discarded and only the channel values stay
as they were. -/
theorem set_certificate_ok_despite_send_failure (s : Store) (leaf : Der)
    (intermediates : List Der) (expiry now : SystemTime)
    (hok : s.server_cert_verifier (Certificate.mk leaf) (intermediates.map Certificate.mk)
        s.name now = .ok ())
    (hc : s.client_tx.has_receivers = false)
    (hs : s.server_tx.has_receivers = false) :
    ∃ s', s.set_certificate leaf intermediates expiry now = some (.ok (), s')
      ∧ (s.client_tx.send (s.client_config ⟨⟨assemble_chain leaf intermediates, ⟨s.key⟩⟩⟩)).2
          = .error .mk
      ∧ (s.server_tx.send (server_config s.roots
            (.cert_resolver ⟨⟨assemble_chain leaf intermediates, ⟨s.key⟩⟩⟩))).2
          = .error .mk
      ∧ s'.client_tx.value = s.client_tx.value
      ∧ s'.server_tx.value = s.server_tx.value := by
  refine ⟨s.publish_certified (assemble_chain leaf intermediates), ?_, ?_, ?_, ?_, ?_⟩
  · simp [Store.set_certificate, assemble_chain, Store.validate, hok]
  · simp [WatchChannel.send, hc]
  · simp [WatchChannel.send, hs]
  · simp [Store.publish_certified, WatchChannel.send, hc]
  · simp [Store.publish_certified, WatchChannel.send, hc, hs]

/-- Witness for C8 at a concrete store whose verifier accepts and whose
channels have no receivers left. -/
theorem set_certificate_ok_despite_send_failure_witness :
    ∃ s', storeOkNoReceivers.set_certificate [1] [[2]] 0 0 = some (.ok (), s')
      ∧ (storeOkNoReceivers.client_tx.send
            (storeOkNoReceivers.client_config ⟨⟨assemble_chain [1] [[2]], ⟨storeOkNoReceivers.key⟩⟩⟩)).2
          = .error .mk
      ∧ (storeOkNoReceivers.server_tx.send (server_config storeOkNoReceivers.roots
            (.cert_resolver ⟨⟨assemble_chain [1] [[2]], ⟨storeOkNoReceivers.key⟩⟩⟩))).2
          = .error .mk
      ∧ s'.client_tx.value = storeOkNoReceivers.client_tx.value
      ∧ s'.server_tx.value = storeOkNoReceivers.server_tx.value :=
  set_certificate_ok_despite_send_failure storeOkNoReceivers [1] [[2]] 0 0 rfl rfl rfl

/-- `add_parsable_certificates` grows the store by exactly the addable
certificates, in order, and reports `(added, skipped)`: `added` counts
the addable certificates and `skipped` the rest. -/
theorem add_parsable_certificates_counts (parsable : Der → Bool) (certs : List Der)
    (s : RootCertStore) :
    s.add_parsable_certificates parsable certs
      = (⟨s.roots ++ certs.filter parsable⟩,
         (certs.filter parsable).length,
         (certs.filter (fun d => !parsable d)).length) := by
  induction certs generalizing s with
  | nil => simp [RootCertStore.add_parsable_certificates]
  | cons d rest ih =>
    cases h : parsable d with
    | true => simp [RootCertStore.add_parsable_certificates, h, ih]
    | false => simp [RootCertStore.add_parsable_certificates, h, ih]

/-- Of `N` certificates, the skipped ones number `N - M` where `M` is
the number of addable ones. -/
theorem length_filter_not_eq_sub (parsable : Der → Bool) (certs : List Der) :
    (certs.filter (fun d => !parsable d)).length
      = certs.length - (certs.filter parsable).length := by
  induction certs with
  | nil => simp
  | cons d rest ih =>
    have hle := List.length_filter_le parsable rest
    cases h : parsable d <;> simp [h, ih] <;> omega

/-- Counterexample to claim C3 as stated: at this concrete input the PEM
yields zero addable certificates and `watch` does fail, but the error it
reports is the string error "no trust roots loaded" — not the declared
`InvalidTrustRoots` type, which `watch` never constructs. -/
theorem watch_zero_roots_error_not_invalid_trust_roots :
    watch envNoAddableRoots "foo.ns1" "anchors.pem" [1] [2]
        = .error WatchError.noTrustRootsLoaded
    ∧ WatchError.noTrustRootsLoaded ≠ WatchError.invalidTrustRoots :=
  ⟨rfl, by decide⟩

/-- Claim C3 (amended): given that the trust-anchor PEM decodes to `N`
certificates of which `M` are addable and the key parses,
`add_parsable_certificates` reports exactly `M` added and `N - M`
skipped, `watch` succeeds exactly when `M ≠ 0`, a failure with `M = 0` is
the string error "no trust roots in PEM file" (when `N = 0`) or "no trust
roots loaded" (otherwise), and the declared `InvalidTrustRoots` error is
never returned. -/
theorem watch_fails_iff_no_roots_added (env : CredsEnv) (identity roots_pem : String)
    (key_pkcs8 csr : List Nat) (certs : List Der) (key : EcdsaKeyPair)
    (hpem : env.pemfile_certs roots_pem = .ok certs)
    (hkey : env.from_pkcs8 key_pkcs8 = .ok key) :
    (RootCertStore.empty.add_parsable_certificates env.parsable_root certs).2
        = ((certs.filter env.parsable_root).length,
           certs.length - (certs.filter env.parsable_root).length)
    ∧ ((watch env identity roots_pem key_pkcs8 csr).isOk = true
        ↔ (certs.filter env.parsable_root).length ≠ 0)
    ∧ ((certs.filter env.parsable_root).length = 0 →
        watch env identity roots_pem key_pkcs8 csr
          = .error (if certs.isEmpty then .noTrustRootsInPem else .noTrustRootsLoaded))
    ∧ watch env identity roots_pem key_pkcs8 csr ≠ .error WatchError.invalidTrustRoots := by
  have hcounts := add_parsable_certificates_counts env.parsable_root certs RootCertStore.empty
  have hsub := length_filter_not_eq_sub env.parsable_root certs
  refine ⟨by rw [hcounts, hsub], ?_⟩
  by_cases hemp : certs.isEmpty
  · have hnil : certs = [] := List.isEmpty_iff.mp hemp
    subst hnil
    have hwatch : watch env identity roots_pem key_pkcs8 csr
        = .error WatchError.noTrustRootsInPem := by
      simp [watch, hpem]
    refine ⟨?_, ?_, ?_⟩
    · rw [hwatch]; simp [Except.isOk, Except.toBool]
    · intro _; rw [hwatch]; simp
    · rw [hwatch]; simp
  · have hemp' : certs.isEmpty = false := by
      cases hval : certs.isEmpty
      · rfl
      · exact absurd hval hemp
    by_cases hM : (certs.filter env.parsable_root).length = 0
    · have hwatch : watch env identity roots_pem key_pkcs8 csr
          = .error WatchError.noTrustRootsLoaded := by
        simp [watch, hpem, hemp', hcounts, hM]
      refine ⟨?_, ?_, ?_⟩
      · rw [hwatch]; simp [Except.isOk, Except.toBool, hM]
      · intro _; rw [hwatch]; simp [hemp']
      · rw [hwatch]; simp
    · have hM' : ((certs.filter env.parsable_root).length == 0) = false := by
        simp [hM]
      refine ⟨?_, fun hcontra => absurd hcontra hM, ?_⟩
      · simp [watch, hpem, hemp', hcounts, hM', hkey, Except.isOk, Except.toBool, hM]
      · simp [watch, hpem, hemp', hcounts, hM', hkey]

/-- Witness for the amended C3 at a concrete environment: two
certificates in the PEM, one addable, a valid key — `watch` succeeds and
reports one added, one skipped. -/
theorem watch_fails_iff_no_roots_added_witness :
    (RootCertStore.empty.add_parsable_certificates envOneAddableRoot.parsable_root
        [[0], [1]]).2
        = ((([[0], [1]] : List Der).filter envOneAddableRoot.parsable_root).length,
           ([[0], [1]] : List Der).length
             - (([[0], [1]] : List Der).filter envOneAddableRoot.parsable_root).length)
    ∧ ((watch envOneAddableRoot "foo.ns1" "anchors.pem" [1] [2]).isOk = true
        ↔ (([[0], [1]] : List Der).filter envOneAddableRoot.parsable_root).length ≠ 0)
    ∧ ((([[0], [1]] : List Der).filter envOneAddableRoot.parsable_root).length = 0 →
        watch envOneAddableRoot "foo.ns1" "anchors.pem" [1] [2]
          = .error (if ([[0], [1]] : List Der).isEmpty then .noTrustRootsInPem
              else .noTrustRootsLoaded))
    ∧ watch envOneAddableRoot "foo.ns1" "anchors.pem" [1] [2]
        ≠ .error WatchError.invalidTrustRoots :=
  watch_fails_iff_no_roots_added envOneAddableRoot "foo.ns1" "anchors.pem" [1] [2]
    [[0], [1]] ⟨1⟩ rfl rfl
